import Mathlib

/-!
Verification of the borgify text transformer (`borgify.py`).

The pipeline is embedded shallowly: Python strings become Lean `String`
(with `String.data : List Char` used for recursion), the regex-based
helpers become explicit scans over character lists, dictionaries become
association lists in source order, and the two uses of the random
generator (`random.random() < BORG_PHRASE_CHANCE`, `random.choice`)
become explicit oracle parameters `inject : Nat → Bool` and
`pick : Nat → Nat` indexed by the number of non-empty sentences emitted
so far.  The one place in the pipeline where Python could raise — the
expression `new[0]` in `preserve_case`, an `IndexError` when `new` is
empty — is modelled by returning `Option`; everything downstream
propagates the `Option`.

Character-class fidelity: Python 3's `str` predicates (`\w`, `\s`,
`isupper`, `istitle`, `lower`, `upper`) are Unicode-wide.  They are
modelled here exactly on ASCII and on the Latin-1 range (U+0080–U+00FF),
which covers every character appearing in the lexicon and in the inputs
used by the theorems; code points above U+00FF are treated as uncased
non-word characters, and the Python-specific expansion `'ß'.upper() = "SS"`
is not modelled (no theorem below touches such characters).
-/

/-- Python's `\w` (regex word character), restricted to ASCII and Latin-1:
ASCII alphanumerics, underscore, and the Latin-1 alphanumerics
(ª ² ³ µ ¹ º ¼ ½ ¾ and the letters U+00C0–U+00FF except × and ÷). -/
def isWordCh (c : Char) : Bool :=
  (48 ≤ c.toNat && c.toNat ≤ 57) ||
  (65 ≤ c.toNat && c.toNat ≤ 90) ||
  (97 ≤ c.toNat && c.toNat ≤ 122) ||
  c = '_' ||
  c.toNat = 0xAA || c.toNat = 0xB2 || c.toNat = 0xB3 || c.toNat = 0xB5 ||
  c.toNat = 0xB9 || c.toNat = 0xBA ||
  (0xBC ≤ c.toNat && c.toNat ≤ 0xBE) ||
  (0xC0 ≤ c.toNat && c.toNat ≤ 0xFF && c.toNat ≠ 0xD7 && c.toNat ≠ 0xF7)

/-- Python's `\s` / `str.isspace`, restricted to ASCII and Latin-1. -/
def isSpaceCh (c : Char) : Bool :=
  c.toNat = 32 || (9 ≤ c.toNat && c.toNat ≤ 13) ||
  (28 ≤ c.toNat && c.toNat ≤ 31) || c.toNat = 0x85 || c.toNat = 0xA0

/-- The character class `[A-Za-z0-9'’\-]` used by both regexes in
`borgify_word` and `smart_split`. -/
def isTokenChar (c : Char) : Bool :=
  (48 ≤ c.toNat && c.toNat ≤ 57) ||
  (65 ≤ c.toNat && c.toNat ≤ 90) ||
  (97 ≤ c.toNat && c.toNat ≤ 122) ||
  c = '\'' || c = '’' || c = '-'

/-- The character class `[^\w']` matched by the trailing-punctuation group
of the `borgify_word` regex. -/
def isTrailChar (c : Char) : Bool :=
  !(isWordCh c) && c ≠ '\''

/-- An upper-case cased character (ASCII and Latin-1 letters). -/
def isUpperCh (c : Char) : Bool :=
  (65 ≤ c.toNat && c.toNat ≤ 90) ||
  (0xC0 ≤ c.toNat && c.toNat ≤ 0xDE && c.toNat ≠ 0xD7)

/-- A lower-case cased character (ASCII and Latin-1 letters; includes µ and ß). -/
def isLowerCh (c : Char) : Bool :=
  (97 ≤ c.toNat && c.toNat ≤ 122) || c.toNat = 0xB5 ||
  (0xDF ≤ c.toNat && c.toNat ≤ 0xFF && c.toNat ≠ 0xF7)

/-- A cased character, in the sense of Python's `isupper`/`istitle`. -/
def isCasedCh (c : Char) : Bool :=
  isUpperCh c || isLowerCh c

/-- Python `str.lower` on one character (ASCII and Latin-1 letters). -/
def pyLowerChar (c : Char) : Char :=
  if 65 ≤ c.toNat && c.toNat ≤ 90 then Char.ofNat (c.toNat + 32)
  else if 0xC0 ≤ c.toNat && c.toNat ≤ 0xDE && c.toNat ≠ 0xD7 then Char.ofNat (c.toNat + 32)
  else c

/-- Python `str.upper` on one character (ASCII and Latin-1 letters;
`ÿ` maps to `Ÿ` U+0178, as in Python). -/
def pyUpperChar (c : Char) : Char :=
  if 97 ≤ c.toNat && c.toNat ≤ 122 then Char.ofNat (c.toNat - 32)
  else if 0xE0 ≤ c.toNat && c.toNat ≤ 0xFE && c.toNat ≠ 0xF7 then Char.ofNat (c.toNat - 32)
  else if c.toNat = 0xFF then Char.ofNat 0x178
  else c

/-- Python `str.lower` (character-wise on this character range). -/
def pyLowerStr (s : String) : String :=
  String.mk (s.data.map pyLowerChar)

/-- Python `str.upper` (character-wise; the multi-character expansion of
`ß` is outside the modelled range). -/
def pyUpperStr (s : String) : String :=
  String.mk (s.data.map pyUpperChar)

/-- Python `str.isupper`: at least one cased character, and every cased
character upper-case. -/
def pyIsUpper (s : String) : Bool :=
  s.data.any isCasedCh && s.data.all (fun c => !(isCasedCh c) || isUpperCh c)

/-- Loop of Python `str.istitle`: `prevCased` tracks whether the previous
character was cased, `seenCased` whether any cased character occurred. -/
def istitleGo : List Char → Bool → Bool → Bool
  | [], _, seenCased => seenCased
  | c :: rest, prevCased, seenCased =>
    if isUpperCh c then
      if prevCased then false else istitleGo rest true true
    else if isLowerCh c then
      if !prevCased then false else istitleGo rest true true
    else istitleGo rest false seenCased

/-- Python `str.istitle`. -/
def pyIsTitle (s : String) : Bool :=
  istitleGo s.data false false

/-- Python `str.strip` (both ends, whitespace per `isSpaceCh`). -/
def pyStrip (s : String) : String :=
  String.mk (((s.data.dropWhile isSpaceCh).reverse.dropWhile isSpaceCh).reverse)

/-- Ordered association-list lookup, the model of Python dict lookup
(insertion order; all the dictionaries below have distinct keys). -/
def lookup (k : String) : List (String × String) → Option String
  | [] => none
  | (a, b) :: rest => if k = a then some b else lookup k rest

/-- The `PHRASAL_VERBS` table, in source order. -/
def PHRASAL_VERBS : List (String × String) :=
  [("find out", "detect"),
   ("give up", "cease functioning"),
   ("make sure", "verify"),
   ("turn on", "activate"),
   ("turn off", "deactivate"),
   ("break down", "malfunction"),
   ("figure out", "resolve"),
   ("set up", "initialize"),
   ("shut down", "deactivate"),
   ("look for", "probe for"),
   ("bring up", "signal")]

/-- The `I_FORMS` table, in source order. -/
def I_FORMS : List (String × String) :=
  [("i", "we"),
   ("i'm", "we are"),
   ("i'd", "we would"),
   ("i'll", "we will"),
   ("i've", "we have"),
   ("I", "We"),
   ("I'm", "We are"),
   ("I'd", "We would"),
   ("I'll", "We will"),
   ("I've", "We have")]

/-- The `PRONOUNS` table, in source order. -/
def PRONOUNS : List (String × String) :=
  [("me", "us"),
   ("my", "our"),
   ("mine", "ours"),
   ("you", "you will be assimilated"),
   ("your", "your node"),
   ("yours", "of the collective"),
   ("oneself", "ourselves"),
   ("himself", "ourself"),
   ("herself", "ourself"),
   ("itself", "ourself"),
   ("themselves", "ourselves")]

/-- The `NOUNS` table, in source order. -/
def NOUNS : List (String × String) :=
  [("human", "biological unit"),
   ("humans", "biological units"),
   ("person", "biological unit"),
   ("people", "biological units"),
   ("friend", "adjacent node"),
   ("friends", "adjacent nodes"),
   ("man", "unit"),
   ("men", "units"),
   ("woman", "unit"),
   ("women", "units"),
   ("team", "collective"),
   ("server", "node"),
   ("network", "collective link"),
   ("script", "subroutine"),
   ("code", "subroutine"),
   ("error", "non-compliance"),
   ("success", "assimilation complete"),
   ("failure", "assimilation incomplete"),
   ("life", "continuum"),
   ("world", "system"),
   ("heart", "core"),
   ("mind", "neural array"),
   ("truth", "prime directive"),
   ("problem", "malfunction"),
   ("time", "cycle"),
   ("light", "energy source"),
   ("darkness", "subsystem offline"),
   ("question", "query"),
   ("answer", "response"),
   ("dream", "subroutine"),
   ("dreams", "subroutines"),
   ("day", "cycle"),
   ("days", "cycles"),
   ("night", "cycle"),
   ("nights", "cycles"),
   ("year", "cycle"),
   ("years", "cycles"),
   ("child", "sub-unit"),
   ("children", "sub-units"),
   ("enemy", "unassimilated entity"),
   ("enemies", "unassimilated entities")]

/-- The `VERBS` table, in source order. -/
def VERBS : List (String × String) :=
  [("run", "execute"),
   ("try", "initiate subroutine"),
   ("build", "synthesize"),
   ("help", "provide interface assistance"),
   ("fix", "repair"),
   ("connect", "link"),
   ("test", "probe"),
   ("start", "activate"),
   ("stop", "halt"),
   ("send", "transmit"),
   ("receive", "receive"),
   ("be", "function as"),
   ("am", "function as"),
   ("is", "functions as"),
   ("are", "function as"),
   ("was", "functioned as"),
   ("were", "functioned as"),
   ("do", "execute"),
   ("did", "executed"),
   ("does", "executes"),
   ("go", "transmit"),
   ("went", "transmitted"),
   ("see", "detect"),
   ("saw", "detected"),
   ("look", "detect"),
   ("feel", "register stimulus"),
   ("felt", "registered stimulus"),
   ("become", "assimilate"),
   ("give", "provide"),
   ("take", "acquire"),
   ("get", "retrieve"),
   ("got", "retrieved"),
   ("make", "synthesize"),
   ("made", "synthesized"),
   ("know", "process"),
   ("knew", "processed"),
   ("find", "locate"),
   ("found", "located"),
   ("choose", "select"),
   ("chose", "selected"),
   ("want", "require"),
   ("keep", "retain"),
   ("call", "signal"),
   ("leave", "exit"),
   ("enter", "access"),
   ("ask", "query"),
   ("bring", "deliver")]

/-- The `MONOTONE` (adjective) table, in source order. -/
def MONOTONE : List (String × String) :=
  [("good", "satisfactory"),
   ("bad", "suboptimal"),
   ("great", "noted"),
   ("awesome", "functional"),
   ("love", "approve of"),
   ("hate", "disapprove of"),
   ("new", "recently assimilated"),
   ("old", "legacy"),
   ("easy", "low-complexity"),
   ("hard", "high-complexity"),
   ("difficult", "high-complexity"),
   ("important", "priority"),
   ("happy", "satisfactory"),
   ("sad", "suboptimal"),
   ("big", "expansive"),
   ("large", "expansive"),
   ("huge", "expansive"),
   ("small", "minimal"),
   ("little", "minimal"),
   ("strong", "robust"),
   ("weak", "unstable"),
   ("fast", "accelerated"),
   ("quick", "accelerated"),
   ("slow", "decelerated"),
   ("bright", "high-output"),
   ("dark", "offline"),
   ("terrible", "critical"),
   ("horrible", "critical"),
   ("best", "optimal"),
   ("worst", "lowest-functioning"),
   ("smart", "well-adapted"),
   ("clever", "well-adapted")]

/-- The `BORG_PHRASES` pool, in source order. -/
def BORG_PHRASES : List String :=
  ["RESISTANCE IS FUTILE.",
   "YOU WILL BE ASSIMILATED.",
   "NON-COMPLIANCE DETECTED.",
   "ASSIMILATION COMPLETE.",
   "ADAPTATION IS INEVITABLE.",
   "YOUR BIOLOGICAL AND TECHNOLOGICAL DISTINCTIVENESS WILL BE ADDED TO OUR OWN.",
   "WE ARE THE BORG.",
   "FROM THIS TIME FORWARD, YOU WILL SERVICE US.",
   "SELF-DETERMINATION IS IRRELEVANT.",
   "YOU WILL ADAPT TO SERVICE US."]

/-- First character of a character list is an upper-case letter
(the `old[0].isupper()` test; only reached under `len(old) > 1`). -/
def headIsUpper : List Char → Bool
  | [] => false
  | c :: _ => isUpperCh c

/-- `preserve_case(new, old)` from the source.  The `new[0]` indexing in
the title-case branch raises `IndexError` in Python when `new` is empty;
that possibility is modelled by `none`. -/
def preserve_case (new old : String) : Option String :=
  if pyIsUpper old then some (pyUpperStr new)
  else if pyIsTitle old || (decide (old.data.length > 1) && headIsUpper old.data) then
    match new.data with
    | [] => none
    | c :: cs => some (String.mk (pyUpperChar c :: cs))
  else some new

/-- Shared shape of every hit branch of `borgify_word`:
`preserve_case(TABLE[key], w) + punct`. -/
def applyRepl (v w punct : String) : Option String :=
  (preserve_case v w).map (fun r => r ++ punct)

/-- The split performed by `re.match(r"^([A-Za-z0-9'’\-]+)([^\w']*)$", word)`:
the greedy first group is the maximal `isTokenChar` prefix, and the match
succeeds exactly when that prefix is non-empty and all remaining
characters lie in `[^\w']`; on failure the whole word is the core and the
punctuation is empty. -/
def coreSplit (word : String) : String × String :=
  if word.data.takeWhile isTokenChar ≠ [] &&
      (word.data.dropWhile isTokenChar).all isTrailChar then
    (String.mk (word.data.takeWhile isTokenChar),
     String.mk (word.data.dropWhile isTokenChar))
  else (word, "")

/-- The five case-folded lookups of `borgify_word`, in source order:
`I_FORMS`, `PRONOUNS`, `NOUNS`, `VERBS`, `MONOTONE`; first hit wins. -/
def specChain (wl : String) : Option String :=
  match lookup wl I_FORMS with
  | some v => some v
  | none =>
  match lookup wl PRONOUNS with
  | some v => some v
  | none =>
  match lookup wl NOUNS with
  | some v => some v
  | none =>
  match lookup wl VERBS with
  | some v => some v
  | none =>
  match lookup wl MONOTONE with
  | some v => some v
  | none => none

/-- The full lookup chain of `borgify_word`: the exact-case `I_FORMS`
test (`if w in I_FORMS`) followed by the five case-folded lookups. -/
def firstHit (w wl : String) : Option String :=
  match lookup w I_FORMS with
  | some v => some v
  | none =>
  match lookup wl I_FORMS with
  | some v => some v
  | none =>
  match lookup wl PRONOUNS with
  | some v => some v
  | none =>
  match lookup wl NOUNS with
  | some v => some v
  | none =>
  match lookup wl VERBS with
  | some v => some v
  | none =>
  match lookup wl MONOTONE with
  | some v => some v
  | none => none

/-- `borgify_word(word)` from the source: split off trailing punctuation,
try the lookup chain on the core, and on a hit return the case-transferred
replacement followed by the punctuation; otherwise return the original
token. -/
def borgify_word (word : String) : Option String :=
  match firstHit (coreSplit word).1 (pyLowerStr (coreSplit word).1) with
  | some v => applyRepl v (coreSplit word).1 (coreSplit word).2
  | none => some word

/-- Modelled from the spec's §4.4 wording for comparison with
`borgify_word`: a single lookup of `core.lower()` through the categories
in the order contracted-first-person → pronouns → nouns → verbs →
adjectives (no exact-case pre-test), first hit wins, otherwise the
original token is returned unchanged. -/
def borgify_wordSpec (word : String) : Option String :=
  match specChain (pyLowerStr (coreSplit word).1) with
  | some v => applyRepl v (coreSplit word).1 (coreSplit word).2
  | none => some word

/-- Case-insensitive match of a (lower-case) pattern against a prefix of
`s`, the model of `re.IGNORECASE` literal matching on this character
range. -/
def matchCI : List Char → List Char → Bool
  | [], _ => true
  | _ :: _, [] => false
  | p :: ps, c :: cs => pyLowerChar c = pyLowerChar p && matchCI ps cs

/-- The `\b` requirement after the matched phrase: the character following
the span (here, at offset `ph.length` into `s`) is absent or not a word
character.  (Every phrase in the table ends in a letter.) -/
def afterOK (ph s : List Char) : Bool :=
  match s.drop ph.length with
  | [] => true
  | c :: _ => !(isWordCh c)

/-- Scan loop of `re.sub(r'\b PHRASE \b', rep, line, re.IGNORECASE)` for a
single phrase: `skip` counts characters of a replaced span still to
consume, `prevW` records whether the previous character of the original
line was a word character (the `\b` context; every phrase in the table
starts with a letter, so `\b` before the match means `¬prevW`).  Matches
are non-overlapping and searched left to right in the original string. -/
def subGo (ph rep : List Char) : List Char → Nat → Bool → List Char
  | [], _, _ => []
  | c :: rest, k + 1, _ => subGo ph rep rest k (isWordCh c)
  | c :: rest, 0, prevW =>
    if !prevW && matchCI ph (c :: rest) && afterOK ph (c :: rest) then
      rep ++ subGo ph rep rest (ph.length - 1) (isWordCh c)
    else
      c :: subGo ph rep rest 0 (isWordCh c)

/-- One `pattern.sub(replacement, line)` call of `pre_borgify`. -/
def subPhrase (ph rep s : List Char) : List Char :=
  subGo ph rep s 0 false

/-- `pre_borgify(line)` from the source: fold the whole-line,
case-insensitive, word-boundary-anchored substitution over the
`PHRASAL_VERBS` table in source order. -/
def pre_borgify (line : String) : String :=
  PHRASAL_VERBS.foldl
    (fun l pr => String.mk (subPhrase pr.1.data pr.2.data l.data)) line

/-- Position scan for a case-insensitive, word-boundary-bounded occurrence
of `ph`: checks every position of `s` (written from the spec's notion of
"whole-word-bounded occurrence", independently of the replacement scan). -/
def occursBoundedGo (ph : List Char) : List Char → Bool → Bool
  | [], _ => false
  | c :: rest, prevW =>
    (!prevW && matchCI ph (c :: rest) && afterOK ph (c :: rest)) ||
    occursBoundedGo ph rest (isWordCh c)

/-- `s` has some case-insensitive, word-boundary-bounded occurrence of `ph`. -/
def occursBounded (ph s : List Char) : Bool :=
  occursBoundedGo ph s false

/-- Scan loop of `re.findall(r"[A-Za-z0-9'’\-]+|[^\w\s]", line)`: `acc`
holds the current word run, reversed.  At each position the first
alternative (a run of `isTokenChar`) is tried first; otherwise a single
character that is neither a word character nor whitespace is its own
token; any other character (whitespace, or a word character outside the
ASCII token class, such as an accented letter or underscore) matches
neither alternative and is passed over. -/
def ssGo : List Char → List Char → List String
  | acc, [] => if acc = [] then [] else [String.mk acc.reverse]
  | acc, c :: rest =>
    if isTokenChar c then ssGo (c :: acc) rest
    else
      (if acc = [] then [] else [String.mk acc.reverse]) ++
      (if !(isWordCh c) && !(isSpaceCh c) then [String.singleton c] else []) ++
      ssGo [] rest

/-- `smart_split(line)` from the source. -/
def smart_split (line : String) : List String :=
  ssGo [] line.data

/-- The apostrophe normalization `line.replace("’", "'")` at the top of
`borgify_line` (a single-character replace, hence a character map). -/
def normalizeLine (line : String) : String :=
  String.mk (line.data.map (fun c => if c = '’' then '\'' else c))

/-- `re.split(r'([.!?])', line)` reshaped: the list of
(text, terminal delimiter) pairs together with the trailing text after
the last delimiter.  (`re.split` with one capturing group always returns
an odd-length alternating list; the pairs are its even/odd element pairs
and the trailing text its last element.) -/
def splitSent : List Char → List (String × Char) × String
  | [] => ([], "")
  | c :: rest =>
    let r := splitSent rest
    if c = '.' || c = '!' || c = '?' then
      (("", c) :: r.1, r.2)
    else
      match r with
      | ((t, d) :: ps, lastTxt) => ((String.mk (c :: t.data), d) :: ps, lastTxt)
      | ([], lastTxt) => ([], String.mk (c :: lastTxt.data))

/-- Python's `' '.join`. -/
def joinSp : List String → String
  | [] => ""
  | [a] => a
  | a :: b :: rest => a ++ " " ++ joinSp (b :: rest)

/-- The list comprehension `[borgify_word(w) for w in words]`, propagating
the modelled `IndexError` possibility. -/
def mapOpt (f : String → Option String) : List String → Option (List String)
  | [] => some []
  | a :: l =>
    match f a, mapOpt f l with
    | some b, some bs => some (b :: bs)
    | _, _ => none

/-- The sentence loop of `borgify_line`: for each (text, delimiter) pair,
strip the text, skip it if empty, otherwise tokenize, transform each
token, join with single spaces, append the delimiter, and — when the
injection oracle fires for this (the `k`-th) emitted sentence — append
the decorated flavor phrase chosen by the `pick` oracle. -/
def processPairs (inject : Nat → Bool) (pick : Nat → Nat) :
    Nat → List (String × Char) → Option (List String)
  | _, [] => some []
  | k, (t, d) :: ps =>
    if pyStrip t = "" then processPairs inject pick k ps
    else
      match mapOpt borgify_word (smart_split (pyStrip t)),
            processPairs inject pick (k + 1) ps with
      | some ws, some rest =>
        let body := joinSp ws ++ String.singleton d
        some ((if inject k then
                 body ++ " < " ++ BORG_PHRASES.getD (pick k % BORG_PHRASES.length) "" ++ " >"
               else body) :: rest)
      | _, _ => none

/-- The trailing-fragment step of `borgify_line`: when the text after the
last terminal delimiter is non-empty once stripped, it is tokenized and
transformed like a sentence body, with no delimiter and no flavor
phrase. -/
def fragPart (lastTxt : String) : Option (List String) :=
  if pyStrip lastTxt = "" then some []
  else
    match mapOpt borgify_word (smart_split (pyStrip lastTxt)) with
    | some ws => some [joinSp ws]
    | none => none

/-- `pre_borgify` applied after normalization, then split into sentences:
the state of `borgify_line` just before its sentence loop. -/
def sentenceParts (line : String) : List (String × Char) × String :=
  splitSent (pre_borgify (normalizeLine line)).data

/-- `borgify_line(line)` from the source, with the two random draws
supplied by the oracles `inject` and `pick` (indexed by the number of
non-empty sentences already emitted). -/
def borgify_line (inject : Nat → Bool) (pick : Nat → Nat) (line : String) :
    Option String :=
  match processPairs inject pick 0 (sentenceParts line).1,
        fragPart (sentenceParts line).2 with
  | some outs, some frag => some (joinSp (outs ++ frag))
  | _, _ => none

/-- The transform of the trailing fragment alone (the expression appended
for it inside `borgify_line`), as a standalone definition. -/
def fragOut (line : String) : Option String :=
  (mapOpt borgify_word (smart_split (pyStrip (sentenceParts line).2))).map joinSp

/-- Case-variant table for the amended C6 claim: every letter-case variant
of the four contracted first-person tokens, paired with the output that
applying `preserve_case` to the whole stored expansion produces — the
expansion as stored for all-lower cores, with only the first character
upper-cased when the first letter is capitalized but the core is not all
upper-case, and fully upper-cased when the core is entirely upper-case. -/
def contractedExpected : List (String × String) :=
  [("i'm", "we are"), ("I'm", "We are"), ("i'M", "we are"), ("I'M", "WE ARE"),
   ("i'd", "we would"), ("I'd", "We would"), ("i'D", "we would"), ("I'D", "WE WOULD"),
   ("i'll", "we will"), ("I'll", "We will"), ("i'Ll", "we will"), ("i'lL", "we will"),
   ("i'LL", "we will"), ("I'Ll", "We will"), ("I'lL", "We will"), ("I'LL", "WE WILL"),
   ("i've", "we have"), ("I've", "We have"), ("i'Ve", "we have"), ("i'vE", "we have"),
   ("i'VE", "we have"), ("I'Ve", "We have"), ("I'vE", "We have"), ("I'VE", "WE HAVE")]

/-- All (source key, replacement) pairs of the six lexicon tables. -/
def allPairs : List (String × String) :=
  PHRASAL_VERBS ++ I_FORMS ++ PRONOUNS ++ NOUNS ++ VERBS ++ MONOTONE

/-- All source keys of the six lexicon tables. -/
def allKeys : List String :=
  allPairs.map Prod.fst

theorem lookup_mem (l : List (String × String)) (k v : String)
    (h : lookup k l = some v) : (k, v) ∈ l := by
  induction l with
  | nil => simp [lookup] at h
  | cons p rest ih =>
    obtain ⟨a, b⟩ := p
    by_cases hk : k = a
    · subst hk
      simp [lookup] at h
      subst h
      exact List.mem_cons_self _ _
    · simp [lookup, hk] at h
      exact List.mem_cons_of_mem _ (ih h)

theorem lookup_val_ne {tbl : List (String × String)}
    (htbl : ∀ p ∈ tbl, p.2 ≠ "") {k v : String}
    (h : lookup k tbl = some v) : v ≠ "" :=
  htbl (k, v) (lookup_mem tbl k v h)

theorem firstHit_val_ne {w wl v : String} (h : firstHit w wl = some v) :
    v ≠ "" := by
  unfold firstHit at h
  rcases h1 : lookup w I_FORMS with _ | v1 <;> rw [h1] at h
  case some => exact Option.some.inj h ▸ lookup_val_ne (by decide) h1
  rcases h2 : lookup wl I_FORMS with _ | v2 <;> rw [h2] at h
  case some => exact Option.some.inj h ▸ lookup_val_ne (by decide) h2
  rcases h3 : lookup wl PRONOUNS with _ | v3 <;> rw [h3] at h
  case some => exact Option.some.inj h ▸ lookup_val_ne (by decide) h3
  rcases h4 : lookup wl NOUNS with _ | v4 <;> rw [h4] at h
  case some => exact Option.some.inj h ▸ lookup_val_ne (by decide) h4
  rcases h5 : lookup wl VERBS with _ | v5 <;> rw [h5] at h
  case some => exact Option.some.inj h ▸ lookup_val_ne (by decide) h5
  rcases h6 : lookup wl MONOTONE with _ | v6 <;> rw [h6] at h
  case some => exact Option.some.inj h ▸ lookup_val_ne (by decide) h6
  exact absurd h (by simp)

theorem preserve_case_isSome (new old : String) (h : new ≠ "") :
    (preserve_case new old).isSome := by
  unfold preserve_case
  split
  · rfl
  · split
    · rcases hd : new.data with _ | ⟨c, cs⟩
      · obtain ⟨d⟩ := new
        simp only [String.data] at hd
        subst hd
        exact absurd rfl h
      · rfl
    · rfl

theorem applyRepl_isSome (v w punct : String) (h : v ≠ "") :
    (applyRepl v w punct).isSome := by
  unfold applyRepl
  have := preserve_case_isSome v w h
  rcases hp : preserve_case v w with _ | r
  · rw [hp] at this; simp at this
  · rfl

theorem borgify_word_isSome (word : String) : (borgify_word word).isSome := by
  unfold borgify_word
  rcases h : firstHit (coreSplit word).1 (pyLowerStr (coreSplit word).1) with _ | v
  · rfl
  · exact applyRepl_isSome _ _ _ (firstHit_val_ne h)

theorem mapOpt_isSome (f : String → Option String) (l : List String)
    (hf : ∀ a ∈ l, (f a).isSome) : (mapOpt f l).isSome := by
  induction l with
  | nil => rfl
  | cons a l ih =>
    unfold mapOpt
    have h1 := hf a (List.mem_cons_self a l)
    have h2 := ih (fun x hx => hf x (List.mem_cons_of_mem _ hx))
    rcases ha : f a with _ | b
    · rw [ha] at h1; simp at h1
    · rcases hl : mapOpt f l with _ | bs
      · rw [hl] at h2; simp at h2
      · rfl

theorem processPairs_isSome (inject : Nat → Bool) (pick : Nat → Nat)
    (ps : List (String × Char)) : ∀ k : Nat,
    (processPairs inject pick k ps).isSome := by
  induction ps with
  | nil => intro k; rfl
  | cons p ps ih =>
    intro k
    obtain ⟨t, d⟩ := p
    unfold processPairs
    by_cases hs : pyStrip t = ""
    · rw [if_pos hs]; exact ih k
    · rw [if_neg hs]
      have h1 := mapOpt_isSome borgify_word (smart_split (pyStrip t))
        (fun a _ => borgify_word_isSome a)
      have h2 := ih (k + 1)
      rcases hm : mapOpt borgify_word (smart_split (pyStrip t)) with _ | ws
      · rw [hm] at h1; simp at h1
      · rcases hp : processPairs inject pick (k + 1) ps with _ | rest
        · rw [hp] at h2; simp at h2
        · rfl

theorem fragPart_isSome (lastTxt : String) : (fragPart lastTxt).isSome := by
  unfold fragPart
  by_cases hs : pyStrip lastTxt = ""
  · rw [if_pos hs]; rfl
  · rw [if_neg hs]
    have h1 := mapOpt_isSome borgify_word (smart_split (pyStrip lastTxt))
      (fun a _ => borgify_word_isSome a)
    rcases hm : mapOpt borgify_word (smart_split (pyStrip lastTxt)) with _ | ws
    · rw [hm] at h1; simp at h1
    · rfl

/-- C3: for every input line and every behavior of the random oracles, the
whole line transformation — normalization, idiom rewriting, sentence
splitting, tokenization, per-token replacement, phrase injection,
reassembly — produces a result: no step of the pipeline fails (the only
modelled failure, the `IndexError` of `new[0]` in `preserve_case`, is
never reached because every lexicon replacement is non-empty). -/
theorem borgify_line_total (inject : Nat → Bool) (pick : Nat → Nat)
    (line : String) : (borgify_line inject pick line).isSome := by
  unfold borgify_line
  have h1 := processPairs_isSome inject pick (sentenceParts line).1 0
  have h2 := fragPart_isSome (sentenceParts line).2
  rcases hp : processPairs inject pick 0 (sentenceParts line).1 with _ | outs
  · rw [hp] at h1; simp at h1
  · rcases hf : fragPart (sentenceParts line).2 with _ | frag
    · rw [hf] at h2; simp at h2
    · rfl

theorem firstHit_none {w wl : String} (h : lookup w I_FORMS = none) :
    firstHit w wl = specChain wl := by
  unfold firstHit specChain
  rw [h]

/-- C1 counterexample: the claim states that transforming the token `"I"`
yields `"We"`, but `borgify_word` produces `"WE"` — `"I"` is entirely
upper-case, so `preserve_case` takes its all-caps branch and upper-cases
the whole replacement. -/
theorem c1_counterexample :
    borgify_word "I" = some "WE" ∧ borgify_word "I" ≠ some "We" := by
  decide

/-- C1 (amended): case-transfer behavior of the word transformer on a
single token — `"I"` yields `"WE"` (a single capital letter counts as
entirely upper-case, so the replacement is fully upper-cased); `"HELP"`
yields the upper-cased replacement for "help"; `"Help"` yields that
replacement with only its first character upper-cased; `"help"` yields
the replacement exactly as stored. -/
theorem c1_case_transfer :
    borgify_word "I" = some "WE" ∧
    borgify_word "HELP" = some "PROVIDE INTERFACE ASSISTANCE" ∧
    borgify_word "Help" = some "Provide interface assistance" ∧
    borgify_word "help" = some "provide interface assistance" := by
  decide

/-- C2: evaluation of the tokenizer at the failing input.  The word
alternative of the `smart_split` regex is the ASCII class
`[A-Za-z0-9'’\-]`, while `é` is a word character (`\w`), so `é` matches
neither `[A-Za-z0-9'’\-]+` nor `[^\w\s]` and is silently dropped:
`smart_split "café"` loses the non-whitespace character `é`, contradicting
the claim (and the code's own comment "Handles Unicode and ASCII"). -/
theorem c2_unicode_dropped :
    smart_split "café" = ["caf"] ∧
    isWordCh 'é' = true ∧ isSpaceCh 'é' = false := by
  decide

/-- C4: priority order of the word transformer.  `borgify_word` agrees
everywhere with the spec-modelled transformer that performs a single
lower-cased lookup through the categories in the fixed order
contracted-first-person → pronouns → nouns → verbs → adjectives and
falls back to the unchanged token (the code's extra exact-case `I_FORMS`
branch never changes the result); and a token in no category is returned
unchanged with its trailing punctuation intact: `"banana!"` → `"banana!"`. -/
theorem c4_lookup_priority :
    (∀ w : String, borgify_word w = borgify_wordSpec w) ∧
    borgify_word "banana!" = some "banana!" := by
  constructor
  · intro word
    unfold borgify_word borgify_wordSpec
    rcases h : lookup (coreSplit word).1 I_FORMS with _ | v
    · rw [firstHit_none h]
    · have hm := lookup_mem _ _ _ h
      have hh : firstHit (coreSplit word).1 (pyLowerStr (coreSplit word).1) = some v := by
        unfold firstHit
        rw [h]
      rw [hh]
      simp only [I_FORMS, List.mem_cons, List.not_mem_nil, or_false,
        Prod.mk.injEq] at hm
      rcases hm with ⟨h1, h2⟩ | ⟨h1, h2⟩ | ⟨h1, h2⟩ | ⟨h1, h2⟩ | ⟨h1, h2⟩ |
        ⟨h1, h2⟩ | ⟨h1, h2⟩ | ⟨h1, h2⟩ | ⟨h1, h2⟩ | ⟨h1, h2⟩ <;>
        subst h2 <;> rw [h1] <;> rfl
  · decide

theorem subGo_id_of_no_occur (ph rep : List Char) :
    ∀ (s : List Char) (prevW : Bool), occursBoundedGo ph s prevW = false →
    subGo ph rep s 0 prevW = s := by
  intro s
  induction s with
  | nil => intro prevW _; rfl
  | cons c rest ih =>
    intro prevW h
    unfold occursBoundedGo at h
    simp only [Bool.or_eq_false_iff] at h
    obtain ⟨h1, h2⟩ := h
    unfold subGo
    rw [h1]
    simp only [if_false, Bool.false_eq_true, if_neg]
    exact congrArg (c :: ·) (ih (isWordCh c) h2)

/-- C5: idiom rewriting runs on the whole line before tokenization; it
replaces every case-insensitive, whole-word-bounded occurrence of each
idiom (the two occurrences of "figure out", whatever their case, both
become "resolve"); a string with no word-boundary-bounded occurrence of a
phrase — in particular one where the phrase text appears only inside a
larger word — is left unchanged by that phrase's substitution; and on the
spec's example line the idiom resolves before per-word substitution, so
the final output contains "resolve" and the noun replacement
"malfunction", not transforms of "figure" and "out". -/
theorem c5_idiom_rewriting :
    pre_borgify "I need to figure out the problem" = "I need to resolve the problem" ∧
    (∀ ph rep s : List Char, occursBounded ph s = false → subPhrase ph rep s = s) ∧
    pre_borgify "Figure out and FIGURE OUT" = "resolve and resolve" ∧
    borgify_line (fun _ => false) (fun _ => 0) "I need to figure out the problem" =
      some "WE need to resolve the malfunction" := by
  refine ⟨by decide, ?_, by decide, by decide⟩
  intro ph rep s h
  exact subGo_id_of_no_occur ph rep s false h

/-- Witness for C5: "figure out" occurs inside the larger words of
"reconfigure outlets" but on no word boundary, so the substitution leaves
the string unchanged. -/
theorem c5_idiom_rewriting_witness :
    subPhrase "figure out".data "resolve".data "reconfigure outlets".data =
      "reconfigure outlets".data :=
  c5_idiom_rewriting.2.1 _ _ _ (by decide)

/-- C10: idiom replacement inserts the stored lower-case replacement text
regardless of the capitalization of the matched occurrence — both a
sentence-initial "Figure out" and an all-caps "FIGURE OUT" become the
lower-case "resolve". -/
theorem c10_idiom_lowercase :
    pre_borgify "Figure out the problem" = "resolve the problem" ∧
    pre_borgify "FIGURE OUT the problem" = "resolve the problem" := by
  constructor <;> decide

/-- C9: the normalization step is idempotent, preserves length, and maps
each character pointwise — a curly apostrophe becomes a straight ASCII
apostrophe and every other character is unchanged. -/
theorem c9_normalization :
    (∀ s : String, normalizeLine (normalizeLine s) = normalizeLine s) ∧
    (∀ s : String, (normalizeLine s).data.length = s.data.length) ∧
    (∀ (s : String) (i : Nat), (normalizeLine s).data[i]? =
      (s.data[i]?).map (fun c => if c = '’' then '\'' else c)) := by
  refine ⟨?_, ?_, ?_⟩
  · intro s
    unfold normalizeLine
    simp only [List.map_map]
    congr 1
    have he : ((fun c => if c = '’' then '\'' else c) ∘
        (fun c => if c = '’' then '\'' else c)) =
        (fun c : Char => if c = '’' then '\'' else c) := by
      funext c
      by_cases hc : c = '’' <;> simp [hc]
    rw [he]
  · intro s
    unfold normalizeLine
    simp
  · intro s i
    unfold normalizeLine
    simp [List.getElem?_map]

theorem joinSp_append_single : ∀ (l : List String) (x : String),
    ∃ p : List Char, (joinSp (l ++ [x])).data = p ++ x.data := by
  intro l
  induction l with
  | nil => intro x; exact ⟨[], rfl⟩
  | cons a l ih =>
    intro x
    obtain ⟨p, hp⟩ := ih x
    cases l with
    | nil =>
      refine ⟨a.data ++ " ".data, ?_⟩
      show (a ++ " " ++ x).data = a.data ++ " ".data ++ x.data
      rw [String.data_append, String.data_append]
    | cons b l' =>
      refine ⟨a.data ++ " ".data ++ p, ?_⟩
      show (a ++ " " ++ joinSp ((b :: l') ++ [x])).data =
        a.data ++ " ".data ++ p ++ x.data
      rw [String.data_append, String.data_append, hp]
      simp [List.append_assoc]

/-- C7: whenever the text after the last terminal punctuation mark is
non-empty (once stripped), the output line of `borgify_line` ends with
exactly the fragment's transform `fragOut` — the stripped fragment
tokenized by `smart_split` and mapped through `borgify_word` like any
sentence body, joined with single spaces.  `fragOut` takes no random
oracle, so the fragment never receives a flavor-phrase injection whatever
the draws, and since it is the final suffix of the output, no terminal
delimiter is appended to it. -/
theorem c7_trailing_fragment (inject : Nat → Bool) (pick : Nat → Nat)
    (line : String) (h : pyStrip (sentenceParts line).2 ≠ "") :
    ∃ (s f : String) (p : List Char),
      fragOut line = some f ∧
      borgify_line inject pick line = some s ∧
      s.data = p ++ f.data := by
  have h1 := processPairs_isSome inject pick (sentenceParts line).1 0
  rcases hp : processPairs inject pick 0 (sentenceParts line).1 with _ | outs
  · rw [hp] at h1; simp at h1
  · have h2 := mapOpt_isSome borgify_word
      (smart_split (pyStrip (sentenceParts line).2)) (fun a _ => borgify_word_isSome a)
    rcases hm : mapOpt borgify_word (smart_split (pyStrip (sentenceParts line).2)) with _ | ws
    · rw [hm] at h2; simp at h2
    · have hfrag : fragPart (sentenceParts line).2 = some [joinSp ws] := by
        unfold fragPart
        rw [if_neg h, hm]
      have hout : fragOut line = some (joinSp ws) := by
        unfold fragOut
        rw [hm]
        rfl
      obtain ⟨p, hp2⟩ := joinSp_append_single outs (joinSp ws)
      refine ⟨joinSp (outs ++ [joinSp ws]), joinSp ws, p, hout, ?_, hp2⟩
      unfold borgify_line
      rw [hp, hfrag]

/-- Witness for C7 at the line `"Hi. there"` with an injection oracle that
always fires: the output still ends with the bare fragment transform. -/
theorem c7_trailing_fragment_witness : ∃ (s f : String) (p : List Char),
    fragOut "Hi. there" = some f ∧
    borgify_line (fun _ => true) (fun _ => 0) "Hi. there" = some s ∧
    s.data = p ++ f.data :=
  c7_trailing_fragment (fun _ => true) (fun _ => 0) "Hi. there" (by decide)

theorem takeWhile_none {p : Char → Bool} : ∀ (r : List Char),
    (∀ c ∈ r, p c = false) → r.takeWhile p = [] ∧ r.dropWhile p = r := by
  intro r hr
  cases r with
  | nil => exact ⟨rfl, rfl⟩
  | cons c r' =>
    have hc := hr c (List.mem_cons_self c r')
    constructor
    · simp [List.takeWhile_cons, hc]
    · simp [List.dropWhile_cons, hc]

theorem takedrop_append {p : Char → Bool} : ∀ (l r : List Char),
    l.all p = true → (∀ c ∈ r, p c = false) →
    (l ++ r).takeWhile p = l ∧ (l ++ r).dropWhile p = r := by
  intro l
  induction l with
  | nil => intro r _ hr; simpa using takeWhile_none r hr
  | cons a l ih =>
    intro r hl hr
    simp only [List.all_cons, Bool.and_eq_true] at hl
    obtain ⟨h1, h2⟩ := hl
    have := ih r h2 hr
    constructor
    · simp [List.takeWhile_cons, h1, this.1]
    · simp [List.dropWhile_cons, h1, this.2]

theorem coreSplit_append (core punct : String)
    (h1 : core.data ≠ []) (h2 : core.data.all isTokenChar = true)
    (h3 : punct.data.all (fun c => isTrailChar c && !(isTokenChar c)) = true) :
    coreSplit (core ++ punct) = (core, punct) := by
  have hr : ∀ c ∈ punct.data, isTokenChar c = false := by
    intro c hc
    have := List.all_eq_true.mp h3 c hc
    simp only [Bool.and_eq_true, Bool.not_eq_true'] at this
    exact this.2
  have hall : punct.data.all isTrailChar = true := by
    rw [List.all_eq_true]
    intro c hc
    have := List.all_eq_true.mp h3 c hc
    simp only [Bool.and_eq_true] at this
    exact this.1
  have htd := takedrop_append core.data punct.data h2 hr
  unfold coreSplit
  rw [String.data_append, htd.1, htd.2]
  have hcond : (decide (core.data ≠ []) && punct.data.all isTrailChar) = true := by
    simp [h1, hall]
  rw [hcond]
  simp

theorem borgify_word_append (core punct v r : String)
    (h1 : core.data ≠ []) (h2 : core.data.all isTokenChar = true)
    (h3 : punct.data.all (fun c => isTrailChar c && !(isTokenChar c)) = true)
    (hv : firstHit core (pyLowerStr core) = some v)
    (hr : preserve_case v core = some r) :
    borgify_word (core ++ punct) = some (r ++ punct) := by
  unfold borgify_word
  rw [coreSplit_append core punct h1 h2 h3]
  simp only [hv]
  unfold applyRepl
  rw [hr]
  rfl

/-- C6 counterexample: the claim states that for a contracted
first-person token in any letter case, the words after the first of the
expansion remain lower-case; but the all-caps token `"I'M"` yields
`"WE ARE"`, not `"WE are"` — `preserve_case` upper-cases the whole
expansion, not only its first word. -/
theorem c6_counterexample :
    borgify_word "I'M" = some "WE ARE" ∧ borgify_word "I'M" ≠ some "WE are" := by
  decide

/-- C6 (amended): every letter-case variant of the contracted
first-person tokens ("I'm", "I'll", "I'd", "I've"), followed by any run
of trailing punctuation, maps to its multi-word expansion with
`preserve_case` applied to the whole expansion and the punctuation
preserved: the words after the first remain lower-case unless the token
is entirely upper-case, in which case the whole expansion is upper-cased
(see `contractedExpected`). -/
theorem c6_contraction_case : ∀ ce ∈ contractedExpected, ∀ punct : String,
    punct.data.all (fun c => isTrailChar c && !(isTokenChar c)) = true →
    borgify_word (ce.1 ++ punct) = some (ce.2 ++ punct) := by
  intro ce hce punct hp
  have hA := (by decide : ∀ ce ∈ contractedExpected,
    ce.1.data ≠ [] ∧ ce.1.data.all isTokenChar = true) ce hce
  have hB := (by decide : ∀ ce ∈ contractedExpected,
    (firstHit ce.1 (pyLowerStr ce.1)).bind
      (fun v => preserve_case v ce.1) = some ce.2) ce hce
  rcases hf : firstHit ce.1 (pyLowerStr ce.1) with _ | v
  · rw [hf] at hB; simp at hB
  · rw [hf] at hB
    simp only [Option.some_bind] at hB
    exact borgify_word_append ce.1 punct v ce.2 hA.1 hA.2 hp hf hB

/-- Witness for C6 at the token `"I'm"` with trailing `"!"`. -/
theorem c6_contraction_case_witness :
    borgify_word ("I'm" ++ "!") = some ("We are" ++ "!") :=
  c6_contraction_case ("I'm", "We are") (by decide) "!" (by decide)

set_option maxRecDepth 8000 in
/-- C8 counterexample: the verb table maps `"receive"` to itself, so the
replacement value `"receive"` is a source key of a lexicon table,
refuting the claim that no replacement value is a key. -/
theorem c8_counterexample :
    ("receive", "receive") ∈ allPairs ∧ "receive" ∈ allKeys := by
  decide

set_option maxRecDepth 40000 in
/-- C8 (amended): across all six lexicon tables, no replacement value is
a source key of any table, with the single exception of the identity pair
`("receive", "receive")` in the verb table. -/
theorem c8_values_not_keys :
    ∀ p ∈ allPairs, p.2 ∈ allKeys → p = ("receive", "receive") := by
  decide

/-- Witness for C8 at the one pair whose value is a key. -/
theorem c8_values_not_keys_witness : ("receive", "receive") = ("receive", "receive") :=
  c8_values_not_keys ("receive", "receive") (by decide) (by decide)
